import Mathlib

set_option maxHeartbeats 1000000

/-!
Verification development for `pm2supervisor.py` (class `SupervisorGroup` and
`SupervisorSubProcess`).  The Python module wraps the external `pm2` process
manager: it keeps an in-memory `children` dictionary for one named group and
exposes `list` / `status` / `create` / `start` / `stop` / `remove`.

Shallow embedding conventions:
* Python values that flow through `json.loads` and the cached process records
  are modelled by `PyVal` (Python `None`, `bool`, `int`, `float` as `Rat`,
  `str`, `list`, `dict`).  Python dictionaries are association lists with the
  first occurrence of a key authoritative (`dlookup`), in-place value
  replacement (`dset`) and deletion (`ddel`), matching the unique-key
  behaviour of real Python dicts.
* Python exceptions are modelled with `Except PyErr`; an operation that the
  source lets raise (e.g. `TypeError` from `None/1000`) returns
  `Except.error`.
* The external world is an `Env`: `run` is the `_run_subprocess` oracle,
  mapping an argv vector to the already-json-decoded stdout (or a decode /
  parse failure) plus the integer exit code; `now` is the value of
  `time.time()` in seconds, modelled at whole seconds.
* Side effects are recorded in a `Trace`: the argv vectors actually executed,
  the error-level log messages (debug-level logging carries no state and is
  omitted), and the messages passed to the optional external alert callback.
* JSON / Python floats are modelled as rationals; Python `int(...)` is exact
  truncation toward zero of a rational, which floats approximate.
-/

/-- Python exception kinds that the embedded code can raise. -/
inductive PyErr where
  | typeError
  | attributeError
  | indexError
deriving DecidableEq

/-- Python / JSON values as produced by `json.loads` and stored in records. -/
inductive PyVal where
  | none
  | bool (b : Bool)
  | int (n : Int)
  | rat (q : Rat)
  | str (s : String)
  | list (xs : List PyVal)
  | dict (kvs : List (String × PyVal))

/-- Python dictionary with string keys, as an association list. -/
abbrev PyDict := List (String × PyVal)

/-- Python `d[k]` lookup returning an `Option` (first occurrence wins). -/
def dlookup {α : Type} : List (String × α) → String → Option α
  | [], _ => Option.none
  | (k, v) :: rest, key => if k = key then some v else dlookup rest key

/-- Python `d[k] = v`: replace the existing entry in place, else append. -/
def dset {α : Type} : List (String × α) → String → α → List (String × α)
  | [], key, v => [(key, v)]
  | (k, w) :: rest, key, v =>
      if k = key then (key, v) :: rest else (k, w) :: dset rest key v

/-- Python `del d[k]`: drop the entry for the key. -/
def ddel {α : Type} : List (String × α) → String → List (String × α)
  | [], _ => []
  | (k, w) :: rest, key => if k = key then rest else (k, w) :: ddel rest key

/-- Python `k in d` membership test. -/
def hasKey {α : Type} (d : List (String × α)) (key : String) : Bool :=
  (dlookup d key).isSome

/-- Python `d.get(k, dflt)` on a known dictionary: the stored value is
returned even when it is `None`; the default applies only when the key is
absent. -/
def dgetD {α : Type} (d : List (String × α)) (key : String) (dflt : α) : α :=
  (dlookup d key).getD dflt

/-- Python `obj.get(k, dflt)` on an arbitrary value: raises
`AttributeError` when the receiver is not a dictionary. -/
def pyGet (v : PyVal) (key : String) (dflt : PyVal) : Except PyErr PyVal :=
  match v with
  | PyVal.dict kvs => Except.ok (dgetD kvs key dflt)
  | _ => Except.error PyErr.attributeError

/-- Helper for `pySplitChar`: split a character list on a separator,
keeping empty components, exactly like Python `str.split(sep)` with an
explicit one-character separator. -/
def splitCharAux (sep : Char) : List Char → List Char → List (List Char)
  | [], cur => [cur.reverse]
  | c :: rest, cur =>
      if c = sep then cur.reverse :: splitCharAux sep rest []
      else splitCharAux sep rest (c :: cur)

/-- Python `s.split(sep)` for a one-character separator (the source only
ever splits on a single space or a single colon). -/
def pySplitChar (s : String) (sep : Char) : List String :=
  (splitCharAux sep s.data []).map String.mk

/-- Python `s.split(" ")`, used to turn a command string into an argv. -/
def pySplit (s : String) : List String := pySplitChar s ' '

/-- Python `sep.join(xs)`. -/
def pyJoin (sep : String) : List String → String
  | [] => ""
  | [x] => x
  | x :: y :: rest => x ++ sep ++ pyJoin sep (y :: rest)

/-- Python `s.startswith(p)`, on the underlying character lists. -/
def pyStartsWith (s p : String) : Bool := List.isPrefixOf p.data s.data

/-- Python `int(q)` on a rational: truncation toward zero, which for a
reduced fraction is T-division of numerator by denominator. -/
def pyInt (q : Rat) : Int := Int.tdiv q.num (q.den : Int)

/-- Outcome of one `_run_subprocess` call: `parsed` is the result of
`json.loads(stdout.decode())` (an error models any decode or parse
failure), `code` is the process exit code. -/
structure ExecOut where
  parsed : Except Unit PyVal
  code : Int

/-- External world: the subprocess oracle and the current `time.time()`,
modelled at whole seconds (the fractional part of the clock only shifts
the truncated uptime value, which no claim depends on). -/
structure Env where
  run : List String → ExecOut
  now : Int

/-- Observable side effects of one operation. -/
structure Trace where
  commands : List (List String)
  logs : List String
  alerts : List String

/-- Empty side-effect trace. -/
def emptyTrace : Trace := ⟨[], [], []⟩

/-- State of one `SupervisorGroup` instance.  The `START_CMD` template is
recomputed from `python_path` and `working_directory` in `create`, which is
equivalent to the source caching it in `__init__`.  `alert_method` is the
optional external alert callback; an `Except.error` result models the
callback raising. -/
structure SupervisorGroup where
  group_name : String
  children : List (String × PyDict)
  python_path : String
  working_directory : String
  alert_method : Option (String → Except Unit Unit)

namespace SupervisorGroup

/-- Functional update of the `children` field, modelling assignment to
`self.children` or in-place mutation of the shared record dictionary. -/
def withChildren (g : SupervisorGroup) (c : List (String × PyDict)) :
    SupervisorGroup :=
  {g with children := c}

/-- Source constant `STATUS_RUNNING`. -/
def STATUS_RUNNING : String := "RUNNING"

/-- Source constant `STATUS_STOPPED` (note its literal value). -/
def STATUS_STOPPED : String := "NOT RUNNING"

/-- Source constant `STATUS_STARTING`. -/
def STATUS_STARTING : String := "STARTING"

/-- Source dictionary `statuses_translator`. -/
def statuses_translator : List (String × String) :=
  [("online", STATUS_RUNNING),
   ("stopping", STATUS_STOPPED),
   ("stopped", STATUS_STOPPED),
   ("launching", STATUS_STARTING)]

/-- Source expression `statuses_translator.get(key, key)` where `key` is
`pm2_env.get('status')` and hence an arbitrary Python value: only a string
found in the table is translated, every other value (including `None` and
unknown strings) passes through unchanged. -/
def translator_get (key : PyVal) : PyVal :=
  match key with
  | PyVal.str s =>
      match dlookup statuses_translator s with
      | some v => PyVal.str v
      | Option.none => PyVal.str s
  | other => other

/-- Source template `RESTART_CMD`. -/
def RESTART_CMD (name : String) : String := "pm2 restart " ++ name

/-- Source template `STOP_CMD`. -/
def STOP_CMD (name : String) : String := "pm2 stop " ++ name

/-- Source template `REMOVE_CMD`. -/
def REMOVE_CMD (name : String) : String := "pm2 delete " ++ name

/-- Source constant `ALL_STATUS_CMD`. -/
def ALL_STATUS_CMD : String := "pm2 jlist"

/-- Source template `START_CMD` as built in `__init__` and instantiated in
`create` (the apostrophes around the log date format are written as
character escapes). -/
def START_CMD (python_path working_directory program fullname args : String) :
    String :=
  "pm2 start " ++ working_directory ++ "/" ++ program ++
    " --interpreter " ++ python_path ++ " --name " ++ fullname ++
    " --log-date-format=\x27YYYY-MM-DD::HH:mm:ss:SSS\x27 -- " ++ args

/-- Source constant `DEFAULT_ERROR_MESSAGE`, instantiated. -/
def DEFAULT_ERROR_MESSAGE (instruction : String) (code : Int) : String :=
  "Error calling `" ++ instruction ++ "`. Command returned code " ++
    toString code

/-- Source classmethod `_calculate_uptime`: `int(now - since/1000)`.
For an integer `since = n` the exact value of the truncation is
`tdiv (1000*now - n) 1000`, since `now - n/1000 = (1000*now - n)/1000`
and `Int.tdiv` truncates toward zero just like Python `int()`; for a
float (rational) `since` the rational computation is kept verbatim.
Raises `TypeError` when `since` is not a number (in particular when it is
`None`, i.e. the listing element had no `pm_uptime`), exactly as Python
raises on `None/1000`. -/
def calculate_uptime (since : PyVal) (now : Int) : Except PyErr Int :=
  match since with
  | PyVal.int n => Except.ok (Int.tdiv (1000 * now - n) 1000)
  | PyVal.rat q => Except.ok (pyInt ((now : Rat) - q / 1000))
  | PyVal.bool b => Except.ok (Int.tdiv (1000 * now - (if b then 1 else 0)) 1000)
  | _ => Except.error PyErr.typeError

/-- Source classmethod `_parse_pm2_info`.  Match order follows Python's
evaluation order of the dict literal: `pm2_env` lookup (raises if the
element is not a dict, or if `pm2_env` maps to a non-dict), then the
`uptime` entry (raises `TypeError` on a missing/non-numeric `pm_uptime`),
then the `monit` lookup for the `system` entry. -/
def parse_pm2_info (process_data : PyVal) (now : Int) : Except PyErr PyDict :=
  match process_data with
  | PyVal.dict kvs =>
      match dgetD kvs "pm2_env" (PyVal.dict []) with
      | PyVal.dict envkvs =>
          match calculate_uptime (dgetD envkvs "pm_uptime" PyVal.none) now with
          | Except.error e => Except.error e
          | Except.ok up =>
              match dgetD kvs "monit" (PyVal.dict []) with
              | PyVal.dict monitkvs =>
                  Except.ok
                    [("name", dgetD kvs "name" PyVal.none),
                     ("status", translator_get (dgetD envkvs "status" PyVal.none)),
                     ("pm2_status", dgetD envkvs "status" PyVal.none),
                     ("uptime", PyVal.int up),
                     ("system", PyVal.dict
                        [("pid", dgetD kvs "pid" PyVal.none),
                         ("memory", dgetD monitkvs "memory" PyVal.none)]),
                     ("log", PyVal.dict
                        [("out", dgetD envkvs "pm_out_log_path" PyVal.none),
                         ("error", dgetD envkvs "pm_err_log_path" PyVal.none)]),
                     ("execution", PyVal.dict
                        [("interpreter", dgetD envkvs "exec_interpreter" PyVal.none),
                         ("command", dgetD envkvs "pm_exec_path" PyVal.none),
                         ("arguments", dgetD envkvs "args" (PyVal.list []))])]
              | _ => Except.error PyErr.attributeError
      | _ => Except.error PyErr.attributeError
  | _ => Except.error PyErr.attributeError

/-- Python `map(f, obj)` materialised: iterating a list yields its
elements, a dict its keys, a string its characters; anything else raises
`TypeError`. -/
def pyIterElems (v : PyVal) : Except PyErr (List PyVal) :=
  match v with
  | PyVal.list xs => Except.ok xs
  | PyVal.dict kvs => Except.ok (kvs.map (fun kv => PyVal.str kv.1))
  | PyVal.str s => Except.ok (s.data.map (fun c => PyVal.str (String.mk [c])))
  | _ => Except.error PyErr.typeError

/-- Source classmethod `get_all_processes`.  Only `json.loads` is guarded
by `try/except`; the `map(cls._parse_pm2_info, processes)` runs in the
`else` clause, so an exception raised while parsing an element propagates
to the caller. -/
def get_all_processes (env : Env) : Except PyErr (List PyDict × Trace) :=
  let instruction_array := pySplit ALL_STATUS_CMD
  let r := env.run instruction_array
  if r.code ≠ 0 then
    Except.ok ([],
      ⟨[instruction_array],
       [DEFAULT_ERROR_MESSAGE ALL_STATUS_CMD r.code], []⟩)
  else
    match r.parsed with
    | Except.error _ =>
        Except.ok ([], ⟨[instruction_array], ["Error parsing stdout."], []⟩)
    | Except.ok processes =>
        match pyIterElems processes with
        | Except.error e => Except.error e
        | Except.ok elems =>
            match elems.mapM (fun p => parse_pm2_info p env.now) with
            | Except.error e => Except.error e
            | Except.ok recs =>
                Except.ok (recs, ⟨[instruction_array], [], []⟩)

/-- Loop body of `_recover_existent_processes`: build `children_now` from
the parsed listing.  A record whose `name` entry is present but not a
string makes `name.startswith(...)` raise `AttributeError`. -/
def recoverLoop (group_keyword : String) :
    List PyDict → List (String × PyDict) → Except PyErr (List (String × PyDict))
  | [], children_now => Except.ok children_now
  | p :: rest, children_now =>
      match dgetD p "name" (PyVal.str "") with
      | PyVal.str name =>
          if pyStartsWith name group_keyword then
            recoverLoop group_keyword rest
              (dset children_now name
                (dset p "instruction" (PyVal.str (RESTART_CMD name))))
          else recoverLoop group_keyword rest children_now
      | _ => Except.error PyErr.attributeError

/-- Source method `_recover_existent_processes`: full resync, replacing
`children` wholesale with the filtered fresh listing. -/
def recover_existent_processes (env : Env) (g : SupervisorGroup) :
    Except PyErr (SupervisorGroup × Trace) :=
  match get_all_processes env with
  | Except.error e => Except.error e
  | Except.ok (processes, tr) =>
      match recoverLoop (g.group_name ++ ":") processes [] with
      | Except.error e => Except.error e
      | Except.ok children_now =>
          Except.ok ({g with children := children_now}, tr)

/-- Source constructor `__init__`: store the configuration and immediately
perform a full resync. -/
def init (env : Env) (group_name python_path working_directory : String)
    (alert_method : Option (String → Except Unit Unit)) :
    Except PyErr (SupervisorGroup × Trace) :=
  recover_existent_processes env
    ⟨group_name, [], python_path, working_directory, alert_method⟩

/-- Source method `list`: resync, then project `children` to a dictionary
from short name (last `:`-separated component) to the record's `status`
value. -/
def list (env : Env) (g : SupervisorGroup) :
    Except PyErr (List (String × PyVal) × SupervisorGroup × Trace) :=
  match recover_existent_processes env g with
  | Except.error e => Except.error e
  | Except.ok (g2, tr) =>
      let group_processes := g2.children.foldl
        (fun acc kv =>
          dset acc ((pySplitChar kv.1 ':').getLastD "")
            (dgetD kv.2 "status" (PyVal.str STATUS_STOPPED)))
        []
      Except.ok (group_processes, g2, tr)

/-- Source method `status`: optionally resync, then read the local cache;
an absent name yields `[STATUS_STOPPED]`. -/
def status (env : Env) (g : SupervisorGroup) (process_name : String)
    (force_update : Bool) :
    Except PyErr (List PyVal × SupervisorGroup × Trace) :=
  match (if force_update
         then recover_existent_processes env g
         else Except.ok (g, emptyTrace)) with
  | Except.error e => Except.error e
  | Except.ok (g2, tr) =>
      match dlookup g2.children (g2.group_name ++ ":" ++ process_name) with
      | Option.none => Except.ok ([PyVal.str STATUS_STOPPED], g2, tr)
      | some process =>
          Except.ok ([dgetD process "status" (PyVal.str STATUS_STOPPED)], g2, tr)

/-- Source method `alert_mail`: always log the group-prefixed message at
error level; if an external callback is configured, invoke it, catching
and logging (never propagating) any exception it raises. -/
def alert_mail (g : SupervisorGroup) (message : String) : Trace :=
  match g.alert_method with
  | Option.none => ⟨[], ["[GROUP " ++ g.group_name ++ "] " ++ message], []⟩
  | some cb =>
      match cb ("[GROUP " ++ g.group_name ++ "] " ++ message) with
      | Except.ok _ =>
          ⟨[], ["[GROUP " ++ g.group_name ++ "] " ++ message],
           ["[GROUP " ++ g.group_name ++ "] " ++ message]⟩
      | Except.error _ =>
          ⟨[], ["[GROUP " ++ g.group_name ++ "] " ++ message,
                "Exception in external alert method."],
           ["[GROUP " ++ g.group_name ++ "] " ++ message]⟩

/-- Source classmethod `_operation_over_process`: run the instruction,
log on a non-zero exit code, return the success boolean. -/
def operation_over_process (env : Env) (instruction : String) : Bool × Trace :=
  let instruction_array := pySplit instruction
  let code := (env.run instruction_array).code
  if code ≠ 0 then
    (false, ⟨[instruction_array],
             [DEFAULT_ERROR_MESSAGE instruction code], []⟩)
  else (true, ⟨[instruction_array], [], []⟩)

/-- Source classmethod `stop_process`. -/
def stop_process (env : Env) (process_name : String) : Bool × Trace :=
  operation_over_process env (STOP_CMD process_name)

/-- Source classmethod `remove_process`. -/
def remove_process (env : Env) (process_name : String) : Bool × Trace :=
  operation_over_process env (REMOVE_CMD process_name)

/-- Source classmethod `restart_process`. -/
def restart_process (env : Env) (process_name : String) : Bool × Trace :=
  operation_over_process env (RESTART_CMD process_name)

/-- Source method `stop`: alert and refuse on an unknown child; otherwise
run the stop command and, only on success, set the cached status to
`STATUS_STOPPED`. -/
def stop (env : Env) (g : SupervisorGroup) (process_name : String) :
    Bool × SupervisorGroup × Trace :=
  if hasKey g.children (g.group_name ++ ":" ++ process_name) = false then
    (false, g, alert_mail g
      ("The process " ++ (g.group_name ++ ":" ++ process_name) ++
       " is not a child. It will not be stopped"))
  else
    if (stop_process env (g.group_name ++ ":" ++ process_name)).1 then
      match dlookup g.children (g.group_name ++ ":" ++ process_name) with
      | some data =>
          (true,
           withChildren g
             (dset g.children (g.group_name ++ ":" ++ process_name)
               (dset data "status" (PyVal.str STATUS_STOPPED))),
           (stop_process env (g.group_name ++ ":" ++ process_name)).2)
      | Option.none =>
          (true, g, (stop_process env (g.group_name ++ ":" ++ process_name)).2)
    else
      (false, g, (stop_process env (g.group_name ++ ":" ++ process_name)).2)

/-- Source method `remove`: alert and refuse on an unknown child;
otherwise run the delete command and, only on success, drop the local
entry. -/
def remove (env : Env) (g : SupervisorGroup) (process_name : String) :
    Bool × SupervisorGroup × Trace :=
  if hasKey g.children (g.group_name ++ ":" ++ process_name) = false then
    (false, g, alert_mail g
      ("The process " ++ (g.group_name ++ ":" ++ process_name) ++
       " is not a child. It will not be removed"))
  else
    if (remove_process env (g.group_name ++ ":" ++ process_name)).1 then
      (true,
       {g with children := ddel g.children (g.group_name ++ ":" ++ process_name)},
       (remove_process env (g.group_name ++ ":" ++ process_name)).2)
    else
      (false, g, (remove_process env (g.group_name ++ ":" ++ process_name)).2)

/-- Source method `start`: fail without any executor call on an unknown
child; otherwise set the cached status to `STATUS_STARTING`, run the
stored instruction, and promote the status to `STATUS_RUNNING` only on
exit code zero (no rollback on failure).  A non-string stored instruction
would make `instruction.split(" ")` raise. -/
def start (env : Env) (g : SupervisorGroup) (process_name : String) :
    Except PyErr (Bool × SupervisorGroup × Trace) :=
  match dlookup g.children (g.group_name ++ ":" ++ process_name) with
  | Option.none =>
      Except.ok (false, g,
        ⟨[], ["Process doesnt exist: " ++ (g.group_name ++ ":" ++ process_name)],
         []⟩)
  | some data =>
      match dgetD (dset data "status" (PyVal.str STATUS_STARTING))
          "instruction" (PyVal.str "") with
      | PyVal.str instruction =>
          if (env.run (pySplit instruction)).code ≠ 0 then
            Except.ok (false,
              withChildren g
                (dset g.children (g.group_name ++ ":" ++ process_name)
                  (dset data "status" (PyVal.str STATUS_STARTING))),
              ⟨[pySplit instruction],
               [DEFAULT_ERROR_MESSAGE instruction
                  (env.run (pySplit instruction)).code], []⟩)
          else
            Except.ok (true,
              withChildren g
                (dset
                  (dset g.children (g.group_name ++ ":" ++ process_name)
                    (dset data "status" (PyVal.str STATUS_STARTING)))
                  (g.group_name ++ ":" ++ process_name)
                  (dset (dset data "status" (PyVal.str STATUS_STARTING))
                    "status" (PyVal.str STATUS_RUNNING))),
              ⟨[pySplit instruction], [], []⟩)
      | _ => Except.error PyErr.attributeError

/-- Source method `create`: build the start instruction (`commands[0]`
raises `IndexError` on an empty argv), insert the child only when it is
not already known, then delegate to `start`. -/
def create (env : Env) (g : SupervisorGroup) (process_name : String)
    (commands : List String) : Except PyErr (Bool × SupervisorGroup × Trace) :=
  match commands with
  | [] => Except.error PyErr.indexError
  | program_to_exec :: rest =>
      if hasKey g.children (g.group_name ++ ":" ++ process_name) then
        start env g process_name
      else
        start env
          (withChildren g
            (dset g.children (g.group_name ++ ":" ++ process_name)
              [("name", PyVal.str (g.group_name ++ ":" ++ process_name)),
               ("instruction", PyVal.str
                 (START_CMD g.python_path g.working_directory program_to_exec
                   (g.group_name ++ ":" ++ process_name) (pyJoin " " rest))),
               ("status", PyVal.str STATUS_STOPPED)]))
          process_name

end SupervisorGroup

/-- Source class `SupervisorSubProcess`. -/
structure SupervisorSubProcess where
  name : String
  command : Option String
  commands : Option (List String)

/-- Source constructor of `SupervisorSubProcess`: `commands` is the
space-split of `command` when one is given, else `None`. -/
def mkSupervisorSubProcess (process_name : String) (command : Option String) :
    SupervisorSubProcess :=
  ⟨process_name, command, command.map pySplit⟩

/-- Argument of `create_new_process` in a dynamically typed language:
either an actual `SupervisorSubProcess` or any other Python object. -/
inductive PyObject where
  | sub (p : SupervisorSubProcess)
  | other

namespace SupervisorGroup

/-- Source method `create_new_process`: a wrong-typed argument is logged
and answered with the plain boolean `False`; a proper object is forwarded
to `create` (a `None` command list makes the eager
`" ".join(commands)` in the debug log raise `TypeError`). -/
def create_new_process (env : Env) (g : SupervisorGroup) (process : PyObject) :
    Except PyErr (Bool × SupervisorGroup × Trace) :=
  match process with
  | PyObject.other =>
      Except.ok (false, g, ⟨[], ["Wrong instance of SupervisorSubProcess"], []⟩)
  | PyObject.sub p =>
      match p.commands with
      | Option.none => Except.error PyErr.typeError
      | some cmds => create env g p.name cmds

end SupervisorGroup

/-! ### Helper lemmas about the Python dictionary model -/

theorem dlookup_dset_self {α : Type} (d : List (String × α)) (k : String)
    (v : α) : dlookup (dset d k v) k = some v := by
  induction d with
  | nil => simp [dset, dlookup]
  | cons kv rest ih =>
      by_cases h : kv.1 = k
      · cases kv
        simp_all [dset, dlookup]
      · cases kv
        simp_all [dset, dlookup]

theorem dlookup_dset_ne {α : Type} (d : List (String × α)) (k key : String)
    (v : α) (h : key ≠ k) : dlookup (dset d k v) key = dlookup d key := by
  induction d with
  | nil => simp [dset, dlookup, Ne.symm h]
  | cons kv rest ih =>
      cases kv with
      | mk k1 w =>
          by_cases h1 : k1 = k
          · subst h1
            simp [dset, dlookup, Ne.symm h]
          · by_cases h2 : k1 = key
            · simp [dset, dlookup, h1, h2, h]
            · simp [dset, dlookup, h1, h2, ih]

theorem mem_dset {α : Type} (d : List (String × α)) (k : String) (v : α)
    (x : String × α) (hx : x ∈ dset d k v) : x = (k, v) ∨ x ∈ d := by
  induction d with
  | nil => simpa [dset] using hx
  | cons kv rest ih =>
      cases kv with
      | mk k1 w =>
          by_cases h1 : k1 = k
          · simp [dset, h1] at hx
            rcases hx with h | h
            · exact Or.inl (by simp [h])
            · exact Or.inr (by simp [h])
          · simp [dset, h1] at hx
            rcases hx with h | h
            · exact Or.inr (by simp [h])
            · rcases ih h with h2 | h2
              · exact Or.inl h2
              · exact Or.inr (by simp [h2])

theorem mem_ddel {α : Type} (d : List (String × α)) (k : String)
    (x : String × α) (hx : x ∈ ddel d k) : x ∈ d := by
  induction d with
  | nil => simp [ddel] at hx
  | cons kv rest ih =>
      cases kv with
      | mk k1 w =>
          by_cases h1 : k1 = k
          · simp [ddel, h1] at hx
            exact List.mem_cons_of_mem _ hx
          · simp [ddel, h1] at hx
            rcases hx with h | h
            · exact (by simp [h])
            · exact List.mem_cons_of_mem _ (ih h)

theorem dset_dset {α : Type} (d : List (String × α)) (k : String) (v w : α) :
    dset (dset d k v) k w = dset d k w := by
  induction d with
  | nil => simp [dset]
  | cons kv rest ih =>
      cases kv with
      | mk k1 u =>
          by_cases h1 : k1 = k
          · simp [dset, h1]
          · simp [dset, h1, ih]

theorem hasKey_dset_self {α : Type} (d : List (String × α)) (k : String)
    (v : α) : hasKey (dset d k v) k = true := by
  simp [hasKey, dlookup_dset_self]

theorem hasKey_dset_mono {α : Type} (d : List (String × α)) (k n : String)
    (v : α) (h : hasKey d n = true) : hasKey (dset d k v) n = true := by
  by_cases hn : n = k
  · subst hn
    exact hasKey_dset_self d n v
  · simpa [hasKey, dlookup_dset_ne d k n v hn] using h

theorem hasKey_iff_dlookup {α : Type} (d : List (String × α)) (k : String) :
    hasKey d k = true ↔ ∃ v, dlookup d k = some v := by
  simp [hasKey, Option.isSome_iff_exists]

/-! ### Helper lemmas about string prefixes -/

theorem isPrefixOf_append_self (l t : List Char) :
    List.isPrefixOf l (l ++ t) = true := by
  induction l with
  | nil => cases t <;> rfl
  | cons c cs ih => simp [List.isPrefixOf, ih]

theorem pyStartsWith_append (p s : String) :
    pyStartsWith (p ++ s) p = true := by
  show List.isPrefixOf p.data (p ++ s).data = true
  exact isPrefixOf_append_self p.data s.data

/-! ### Lemmas about the resync loop -/

namespace SupervisorGroup

theorem recoverLoop_mem (kw : String) (recs : List PyDict) :
    ∀ acc out, recoverLoop kw recs acc = Except.ok out →
    ∀ x : String × PyDict, x ∈ out →
      x ∈ acc ∨
        (pyStartsWith x.1 kw = true ∧ ∃ p, p ∈ recs ∧
          dgetD p "name" (PyVal.str "") = PyVal.str x.1 ∧
          x.2 = dset p "instruction" (PyVal.str (RESTART_CMD x.1))) := by
  induction recs with
  | nil =>
      intro acc out h x hx
      simp only [recoverLoop, Except.ok.injEq] at h
      subst h
      exact Or.inl hx
  | cons p rest ih =>
      intro acc out h x hx
      unfold recoverLoop at h
      split at h
      · rename_i name hname
        split at h
        · rename_i hpre
          rcases ih _ _ h x hx with hacc | hnew
          · rcases mem_dset _ _ _ _ hacc with hx1 | hx2
            · subst hx1
              exact Or.inr ⟨hpre, p, List.mem_cons_self p rest, hname, rfl⟩
            · exact Or.inl hx2
          · rcases hnew with ⟨hp, q, hq, hqn, hqr⟩
            exact Or.inr ⟨hp, q, List.mem_cons_of_mem _ hq, hqn, hqr⟩
        · rcases ih _ _ h x hx with hacc | hnew
          · exact Or.inl hacc
          · rcases hnew with ⟨hp, q, hq, hqn, hqr⟩
            exact Or.inr ⟨hp, q, List.mem_cons_of_mem _ hq, hqn, hqr⟩
      · cases h

theorem recoverLoop_hasKey (kw : String) (recs : List PyDict) :
    ∀ acc out, recoverLoop kw recs acc = Except.ok out →
    ∀ n, hasKey acc n = true → hasKey out n = true := by
  induction recs with
  | nil =>
      intro acc out h n hn
      simp only [recoverLoop, Except.ok.injEq] at h
      subst h
      exact hn
  | cons p rest ih =>
      intro acc out h n hn
      unfold recoverLoop at h
      split at h
      · split at h
        · exact ih _ _ h n (hasKey_dset_mono _ _ _ _ hn)
        · exact ih _ _ h n hn
      · cases h

theorem recoverLoop_complete (kw : String) (recs : List PyDict) :
    ∀ acc out, recoverLoop kw recs acc = Except.ok out →
    ∀ p n, p ∈ recs → dgetD p "name" (PyVal.str "") = PyVal.str n →
      pyStartsWith n kw = true → hasKey out n = true := by
  induction recs with
  | nil =>
      intro acc out h p n hp hpn hpre
      simp at hp
  | cons q rest ih =>
      intro acc out h p n hp hpn hpre
      unfold recoverLoop at h
      split at h
      · rename_i name hname
        rcases List.mem_cons.mp hp with rfl | hp2
        · rw [hpn] at hname
          injection hname with hnm
          subst hnm
          split at h
          · exact recoverLoop_hasKey kw rest _ _ h n
              (hasKey_dset_self _ _ _)
          · rename_i hpre2
            exact absurd hpre hpre2
        · split at h
          · exact ih _ _ h p n hp2 hpn hpre
          · exact ih _ _ h p n hp2 hpn hpre
      · cases h

end SupervisorGroup

namespace SupervisorGroup

theorem recover_inversion (env : Env) (g g2 : SupervisorGroup) (tr : Trace)
    (h : recover_existent_processes env g = Except.ok (g2, tr)) :
    ∃ recs c, get_all_processes env = Except.ok (recs, tr) ∧
      recoverLoop (g.group_name ++ ":") recs [] = Except.ok c ∧
      g2 = {g with children := c} := by
  unfold recover_existent_processes at h
  split at h
  · cases h
  · rename_i recs tr2 heq
    split at h
    · cases h
    · rename_i c hc
      cases h
      exact ⟨recs, c, heq, hc, rfl⟩

theorem recover_eq (env : Env) (g : SupervisorGroup) (recs : List PyDict)
    (tr : Trace) (c : List (String × PyDict))
    (h1 : get_all_processes env = Except.ok (recs, tr))
    (h2 : recoverLoop (g.group_name ++ ":") recs [] = Except.ok c) :
    recover_existent_processes env g =
      Except.ok ({g with children := c}, tr) := by
  unfold recover_existent_processes
  simp only [h1, h2]

/-- Fixture: an executor whose every command exits with code 1 (so the
full listing is empty). -/
def envFail : Env := ⟨fun _ => ⟨Except.error (), 1⟩, 0⟩

/-- Fixture: the trace of one failed `pm2 jlist` call. -/
def trFail : Trace :=
  ⟨[["pm2", "jlist"]], [DEFAULT_ERROR_MESSAGE ALL_STATUS_CMD 1], []⟩

/-- Fixture: a group holding one stale child before a resync. -/
def gIdem : SupervisorGroup :=
  ⟨"g", [("g:old", [("status", PyVal.str "RUNNING")])], "py", "wd",
   Option.none⟩

/-- Fixture: the same group after resyncing against `envFail`. -/
def gIdemRes : SupervisorGroup := ⟨"g", [], "py", "wd", Option.none⟩

end SupervisorGroup

namespace SupervisorGroup

/-- C8: resync is idempotent with respect to an unchanged external
listing: if one call to `_recover_existent_processes` succeeds with
post-state `g2`, running it again against the same environment returns
the identical post-state (the `children` mapping equal field for field)
and the same trace. -/
theorem resync_idempotent (env : Env) (g g2 : SupervisorGroup) (tr : Trace)
    (h : recover_existent_processes env g = Except.ok (g2, tr)) :
    recover_existent_processes env g2 = Except.ok (g2, tr) := by
  rcases recover_inversion env g g2 tr h with ⟨recs, c, heq, hc, rfl⟩
  exact recover_eq env {g with children := c} recs tr c heq hc

/-- Witness for C8 at a concrete environment: the executor exits 1, the
first resync empties the group, and resyncing the emptied group is a
no-op. -/
theorem resync_idempotent_witness :
    recover_existent_processes envFail gIdemRes =
      Except.ok (gIdemRes, trFail) :=
  resync_idempotent envFail gIdem gIdemRes trFail rfl

/-- C1: a successful resync replaces `children` wholesale: the post-state
does not depend on the prior local children at all; every surviving entry
comes from the fresh listing, carries the group prefix, and is the listed
record augmented with a restart instruction keyed on its name; every
listed record with a prefixed name is present; and when the listing
command exits non-zero the post-state has no children and a subsequent
`list` returns the empty mapping. -/
theorem resync_wholesale_replace (env : Env) (g g2 : SupervisorGroup)
    (tr : Trace)
    (h : recover_existent_processes env g = Except.ok (g2, tr)) :
    g2.group_name = g.group_name ∧
    (∀ c0 : List (String × PyDict),
      recover_existent_processes env {g with children := c0} =
        Except.ok (g2, tr)) ∧
    (∃ recs, get_all_processes env = Except.ok (recs, tr) ∧
      (∀ x : String × PyDict, x ∈ g2.children →
        pyStartsWith x.1 (g.group_name ++ ":") = true ∧
        ∃ p, p ∈ recs ∧ dgetD p "name" (PyVal.str "") = PyVal.str x.1 ∧
          x.2 = dset p "instruction" (PyVal.str (RESTART_CMD x.1))) ∧
      (∀ p n, p ∈ recs → dgetD p "name" (PyVal.str "") = PyVal.str n →
        pyStartsWith n (g.group_name ++ ":") = true →
        hasKey g2.children n = true)) ∧
    ((env.run (pySplit ALL_STATUS_CMD)).code ≠ 0 →
      g2.children = [] ∧
      SupervisorGroup.list env g2 = Except.ok ([], g2, tr)) := by
  rcases recover_inversion env g g2 tr h with ⟨recs, c, heq, hc, rfl⟩
  refine ⟨rfl, ?_, ⟨recs, heq, ?_, ?_⟩, ?_⟩
  · intro c0
    exact recover_eq env {g with children := c0} recs tr c heq hc
  · intro x hx
    rcases recoverLoop_mem _ recs [] c hc x hx with h0 | hgood
    · cases h0
    · exact hgood
  · intro p n hp hpn hpre
    exact recoverLoop_complete _ recs [] c hc p n hp hpn hpre
  · intro hcode
    have hga : get_all_processes env =
        Except.ok ([], ⟨[pySplit ALL_STATUS_CMD],
          [DEFAULT_ERROR_MESSAGE ALL_STATUS_CMD
            (env.run (pySplit ALL_STATUS_CMD)).code], []⟩) := by
      unfold get_all_processes
      simp [hcode]
    rw [heq] at hga
    injection hga with hpair
    injection hpair with hrecs htr
    subst hrecs
    simp only [recoverLoop, Except.ok.injEq] at hc
    subst hc
    constructor
    · rfl
    · have hrec := recover_eq env
        {g with children := ([] : List (String × PyDict))} [] tr [] heq rfl
      unfold list
      rw [hrec]
      rfl

/-- Witness for C1: against the failing executor the resync of `gIdem`
drops its stale child and the follow-up `list` call reports the empty
mapping. -/
theorem resync_wholesale_replace_witness :
    gIdemRes.children = [] ∧
    SupervisorGroup.list envFail gIdemRes =
      Except.ok ([], gIdemRes, trFail) :=
  (resync_wholesale_replace envFail gIdem gIdemRes trFail rfl).2.2.2
    (by decide)

end SupervisorGroup

namespace SupervisorGroup

/-- Invariant of claim C4: every key of the local `children` cache starts
with `group_name + ":"`. -/
def GroupScoped (g : SupervisorGroup) : Prop :=
  ∀ x : String × PyDict, x ∈ g.children →
    pyStartsWith x.1 (g.group_name ++ ":") = true

theorem scoped_recover (env : Env) (g g2 : SupervisorGroup) (tr : Trace)
    (h : recover_existent_processes env g = Except.ok (g2, tr)) :
    GroupScoped g2 := by
  rcases recover_inversion env g g2 tr h with ⟨recs, c, heq, hc, rfl⟩
  intro x hx
  rcases recoverLoop_mem _ recs [] c hc x hx with h0 | hgood
  · cases h0
  · exact hgood.1

theorem scoped_start (env : Env) (g : SupervisorGroup) (n : String)
    (b : Bool) (g2 : SupervisorGroup) (tr : Trace) (hg : GroupScoped g)
    (h : start env g n = Except.ok (b, g2, tr)) : GroupScoped g2 := by
  unfold start at h
  split at h
  · cases h
    exact hg
  · rename_i data hdata
    split at h
    · split at h
      · cases h
        intro x hx
        rcases mem_dset _ _ _ _ hx with rfl | hmem
        · exact pyStartsWith_append _ _
        · exact hg _ hmem
      · cases h
        intro x hx
        rcases mem_dset _ _ _ _ hx with rfl | hmem
        · exact pyStartsWith_append _ _
        · rcases mem_dset _ _ _ _ hmem with rfl | hmem2
          · exact pyStartsWith_append _ _
          · exact hg _ hmem2
    · cases h

theorem scoped_stop (env : Env) (g : SupervisorGroup) (n : String)
    (hg : GroupScoped g) : GroupScoped (stop env g n).2.1 := by
  unfold stop
  split
  · exact hg
  · split
    · split
      · intro x hx
        rcases mem_dset _ _ _ _ hx with rfl | hmem
        · exact pyStartsWith_append _ _
        · exact hg _ hmem
      · exact hg
    · exact hg

theorem scoped_remove (env : Env) (g : SupervisorGroup) (n : String)
    (hg : GroupScoped g) : GroupScoped (remove env g n).2.1 := by
  unfold remove
  split
  · exact hg
  · split
    · intro x hx
      exact hg _ (mem_ddel _ _ _ hx)
    · exact hg

theorem scoped_status (env : Env) (g : SupervisorGroup) (n : String)
    (f : Bool) (res : List PyVal) (g2 : SupervisorGroup) (tr : Trace)
    (hg : GroupScoped g)
    (h : status env g n f = Except.ok (res, g2, tr)) : GroupScoped g2 := by
  unfold status at h
  split at h
  · cases h
  · rename_i g2t heq
    cases f
    · simp only [Bool.false_eq_true, if_neg, ite_false] at heq
      cases heq
      split at h
      · cases h
        exact hg
      · cases h
        exact hg
    · simp only [ite_true] at heq
      split at h
      · cases h
        exact scoped_recover env g _ _ heq
      · cases h
        exact scoped_recover env g _ _ heq

theorem scoped_create (env : Env) (g : SupervisorGroup) (n : String)
    (argv : List String) (b : Bool) (g2 : SupervisorGroup) (tr : Trace)
    (hg : GroupScoped g)
    (h : create env g n argv = Except.ok (b, g2, tr)) : GroupScoped g2 := by
  simp only [create] at h
  split at h
  · cases h
  · by_cases hk : hasKey g.children (g.group_name ++ ":" ++ n) = true
    · rw [if_pos hk] at h
      exact scoped_start env g n b g2 tr hg h
    · rw [if_neg hk] at h
      refine scoped_start env _ n b g2 tr ?_ h
      intro x hx
      rcases mem_dset _ _ _ _ hx with rfl | hmem
      · exact pyStartsWith_append _ _
      · exact hg _ hmem

theorem scoped_list (env : Env) (g : SupervisorGroup)
    (m : List (String × PyVal)) (g2 : SupervisorGroup) (tr : Trace)
    (h : list env g = Except.ok (m, g2, tr)) : GroupScoped g2 := by
  unfold list at h
  split at h
  · cases h
  · rename_i g2t heq
    cases h
    exact scoped_recover env g _ _ heq

/-- C4: every operation of the group controller preserves the invariant
that each key of the local `children` cache carries the `group_name + ":"`
prefix; construction and resync establish it outright. -/
theorem children_prefix_invariant :
    (∀ env gn pp wd am g tr,
      init env gn pp wd am = Except.ok (g, tr) → GroupScoped g) ∧
    (∀ env g g2 tr,
      recover_existent_processes env g = Except.ok (g2, tr) →
        GroupScoped g2) ∧
    (∀ env g m g2 tr,
      list env g = Except.ok (m, g2, tr) → GroupScoped g2) ∧
    (∀ env g n f res g2 tr, GroupScoped g →
      status env g n f = Except.ok (res, g2, tr) → GroupScoped g2) ∧
    (∀ env g n argv b g2 tr, GroupScoped g →
      create env g n argv = Except.ok (b, g2, tr) → GroupScoped g2) ∧
    (∀ env g n b g2 tr, GroupScoped g →
      start env g n = Except.ok (b, g2, tr) → GroupScoped g2) ∧
    (∀ env g n, GroupScoped g → GroupScoped (stop env g n).2.1) ∧
    (∀ env g n, GroupScoped g → GroupScoped (remove env g n).2.1) := by
  refine ⟨?_, ?_, ?_, ?_, ?_, ?_, ?_, ?_⟩
  · intro env gn pp wd am g tr h
    exact scoped_recover env _ g tr h
  · intro env g g2 tr h
    exact scoped_recover env g g2 tr h
  · intro env g m g2 tr h
    exact scoped_list env g m g2 tr h
  · intro env g n f res g2 tr hg h
    exact scoped_status env g n f res g2 tr hg h
  · intro env g n argv b g2 tr hg h
    exact scoped_create env g n argv b g2 tr hg h
  · intro env g n b g2 tr hg h
    exact scoped_start env g n b g2 tr hg h
  · intro env g n hg
    exact scoped_stop env g n hg
  · intro env g n hg
    exact scoped_remove env g n hg

/-- Witness for C4: the resync clause applied to the concrete failing
environment yields the invariant for the resulting empty group. -/
theorem children_prefix_invariant_witness : GroupScoped gIdemRes :=
  children_prefix_invariant.2.1 envFail gIdem gIdemRes trFail rfl

end SupervisorGroup

namespace SupervisorGroup

theorem parse_pm2_info_inversion (p : PyVal) (now : Int) (r : PyDict)
    (h : parse_pm2_info p now = Except.ok r) :
    ∃ kvs envkvs monitkvs up,
      p = PyVal.dict kvs ∧
      dgetD kvs "pm2_env" (PyVal.dict []) = PyVal.dict envkvs ∧
      dgetD kvs "monit" (PyVal.dict []) = PyVal.dict monitkvs ∧
      calculate_uptime (dgetD envkvs "pm_uptime" PyVal.none) now =
        Except.ok up ∧
      r = [("name", dgetD kvs "name" PyVal.none),
           ("status", translator_get (dgetD envkvs "status" PyVal.none)),
           ("pm2_status", dgetD envkvs "status" PyVal.none),
           ("uptime", PyVal.int up),
           ("system", PyVal.dict
              [("pid", dgetD kvs "pid" PyVal.none),
               ("memory", dgetD monitkvs "memory" PyVal.none)]),
           ("log", PyVal.dict
              [("out", dgetD envkvs "pm_out_log_path" PyVal.none),
               ("error", dgetD envkvs "pm_err_log_path" PyVal.none)]),
           ("execution", PyVal.dict
              [("interpreter", dgetD envkvs "exec_interpreter" PyVal.none),
               ("command", dgetD envkvs "pm_exec_path" PyVal.none),
               ("arguments", dgetD envkvs "args" (PyVal.list []))])] := by
  unfold parse_pm2_info at h
  split at h
  · rename_i kvs
    split at h
    · rename_i envkvs henv
      split at h
      · cases h
      · rename_i up hup
        split at h
        · rename_i monitkvs hmonit
          cases h
          exact ⟨kvs, envkvs, monitkvs, up, rfl, henv, hmonit, hup, rfl⟩
        · cases h
    · cases h
  · cases h

/-- C5: the status translation is exactly the source table (note that the
normalized value for both `stopping` and `stopped` is the literal
`STATUS_STOPPED`), any string outside the table passes through unchanged,
and every record produced by `_parse_pm2_info` carries as its `status`
entry exactly the translation of its raw `pm2_status` entry. -/
theorem statuses_translator_spec :
    translator_get (PyVal.str "online") = PyVal.str STATUS_RUNNING ∧
    translator_get (PyVal.str "stopping") = PyVal.str STATUS_STOPPED ∧
    translator_get (PyVal.str "stopped") = PyVal.str STATUS_STOPPED ∧
    translator_get (PyVal.str "launching") = PyVal.str STATUS_STARTING ∧
    (∀ s : String, s ≠ "online" → s ≠ "stopping" → s ≠ "stopped" →
      s ≠ "launching" → translator_get (PyVal.str s) = PyVal.str s) ∧
    (∀ p now r, parse_pm2_info p now = Except.ok r →
      ∃ raw, dlookup r "pm2_status" = some raw ∧
        dlookup r "status" = some (translator_get raw)) := by
  refine ⟨rfl, rfl, rfl, rfl, ?_, ?_⟩
  · intro s h1 h2 h3 h4
    simp [translator_get, statuses_translator, dlookup,
      Ne.symm h1, Ne.symm h2, Ne.symm h3, Ne.symm h4]
  · intro p now r h
    rcases parse_pm2_info_inversion p now r h with
      ⟨kvs, envkvs, monitkvs, up, hp, h1, h2, h3, hr⟩
    subst hr
    exact ⟨dgetD envkvs "status" PyVal.none, rfl, rfl⟩

/-- Fixture: a listing element whose `pm2_env` has a `pm_uptime` but no
`status` entry. -/
def pUptime : PyVal :=
  PyVal.dict [("pm2_env", PyVal.dict [("pm_uptime", PyVal.int 0)])]

/-- Fixture: the record `_parse_pm2_info` produces for `pUptime` at time
zero. -/
def recUptime : PyDict :=
  [("name", PyVal.none), ("status", PyVal.none), ("pm2_status", PyVal.none),
   ("uptime", PyVal.int 0),
   ("system", PyVal.dict [("pid", PyVal.none), ("memory", PyVal.none)]),
   ("log", PyVal.dict [("out", PyVal.none), ("error", PyVal.none)]),
   ("execution", PyVal.dict
      [("interpreter", PyVal.none), ("command", PyVal.none),
       ("arguments", PyVal.list [])])]

/-- Witness for C5: the unknown native string `unknown-x` passes through
unchanged, and the concrete parsed record `recUptime` relates its `status`
and `pm2_status` entries through the translation. -/
theorem statuses_translator_spec_witness :
    translator_get (PyVal.str "unknown-x") = PyVal.str "unknown-x" ∧
    (∃ raw, dlookup recUptime "pm2_status" = some raw ∧
      dlookup recUptime "status" = some (translator_get raw)) :=
  ⟨statuses_translator_spec.2.2.2.2.1 "unknown-x"
      (by decide) (by decide) (by decide) (by decide),
   statuses_translator_spec.2.2.2.2.2 pUptime 0 recUptime rfl⟩

end SupervisorGroup

namespace SupervisorGroup

/-- Fixture: a listing whose single element has a `pm_uptime` but whose
environment object lacks a `status` entry, under the group name `g`. -/
def payloadNS : PyVal :=
  PyVal.list [PyVal.dict
    [("name", PyVal.str "g:a"),
     ("pm2_env", PyVal.dict [("pm_uptime", PyVal.int 0)])]]

/-- Fixture: an executor whose `pm2 jlist` succeeds with `payloadNS` and
whose every other command fails. -/
def envNS : Env :=
  ⟨fun argv =>
    if argv = ["pm2", "jlist"] then ⟨Except.ok payloadNS, 0⟩
    else ⟨Except.error (), 1⟩, 0⟩

/-- Fixture: a fresh group named `g` with no children. -/
def gNS : SupervisorGroup := ⟨"g", [], "py", "wd", Option.none⟩

/-- Fixture: the cached record recovered from `payloadNS` (the parsed
record plus the appended restart instruction). -/
def recNS : PyDict :=
  [("name", PyVal.str "g:a"), ("status", PyVal.none),
   ("pm2_status", PyVal.none), ("uptime", PyVal.int 0),
   ("system", PyVal.dict [("pid", PyVal.none), ("memory", PyVal.none)]),
   ("log", PyVal.dict [("out", PyVal.none), ("error", PyVal.none)]),
   ("execution", PyVal.dict
      [("interpreter", PyVal.none), ("command", PyVal.none),
       ("arguments", PyVal.list [])]),
   ("instruction", PyVal.str "pm2 restart g:a")]

/-- Fixture: the group `gNS` after resyncing against `envNS`. -/
def gNSRes : SupervisorGroup :=
  ⟨"g", [("g:a", recNS)], "py", "wd", Option.none⟩

/-- C10: when a listing element parses and has a `pm_uptime` but its
environment object lacks a `status` entry, the normalized record stores
the absent value `None` under both `status` and `pm2_status` — a value
distinct from every member of the normalized vocabulary — and, because
the key is present with that absent value, `list` and `status` hand
`None` through to the caller instead of their lookup defaults. -/
theorem missing_status_passes_none (now : Int) (r : PyDict)
    (kvs envkvs : List (String × PyVal))
    (henv : dgetD kvs "pm2_env" (PyVal.dict []) = PyVal.dict envkvs)
    (hstat : dlookup envkvs "status" = Option.none)
    (h : parse_pm2_info (PyVal.dict kvs) now = Except.ok r) :
    (dlookup r "status" = some PyVal.none ∧
     dlookup r "pm2_status" = some PyVal.none ∧
     PyVal.none ≠ PyVal.str STATUS_RUNNING ∧
     PyVal.none ≠ PyVal.str STATUS_STOPPED ∧
     PyVal.none ≠ PyVal.str STATUS_STARTING) ∧
    SupervisorGroup.list envNS gNS =
      Except.ok ([("a", PyVal.none)], gNSRes, ⟨[["pm2", "jlist"]], [], []⟩) ∧
    status envNS gNSRes "a" false =
      Except.ok ([PyVal.none], gNSRes, emptyTrace) := by
  refine ⟨?_, rfl, rfl⟩
  rcases parse_pm2_info_inversion _ now r h with
    ⟨kvs2, envkvs2, monitkvs, up, hpd, h1, h2, h3, hr⟩
  injection hpd with hk
  subst hk
  rw [henv] at h1
  injection h1 with he
  subst he
  have hnone : dgetD envkvs "status" PyVal.none = PyVal.none := by
    simp [dgetD, hstat]
  subst hr
  rw [hnone]
  refine ⟨rfl, rfl, ?_, ?_, ?_⟩
  · intro hc
    cases hc
  · intro hc
    cases hc
  · intro hc
    cases hc

/-- Witness for C10: the general clause applied to the concrete
element of `payloadNS` (no `status` in its environment object). -/
theorem missing_status_passes_none_witness :
    (dlookup recUptime "status" = some PyVal.none ∧
     dlookup recUptime "pm2_status" = some PyVal.none ∧
     PyVal.none ≠ PyVal.str STATUS_RUNNING ∧
     PyVal.none ≠ PyVal.str STATUS_STOPPED ∧
     PyVal.none ≠ PyVal.str STATUS_STARTING) ∧
    SupervisorGroup.list envNS gNS =
      Except.ok ([("a", PyVal.none)], gNSRes, ⟨[["pm2", "jlist"]], [], []⟩) ∧
    status envNS gNSRes "a" false =
      Except.ok ([PyVal.none], gNSRes, emptyTrace) :=
  missing_status_passes_none 0 recUptime
    [("pm2_env", PyVal.dict [("pm_uptime", PyVal.int 0)])]
    [("pm_uptime", PyVal.int 0)] rfl rfl rfl

/-- Fixture: an executor whose `pm2 jlist` exits 0 and yields the parsed
payload `[{}]` — one element with no `pm_uptime`. -/
def envCrash : Env :=
  ⟨fun argv =>
    if argv = ["pm2", "jlist"] then ⟨Except.ok (PyVal.list [PyVal.dict []]), 0⟩
    else ⟨Except.error (), 1⟩, 0⟩

/-- C3 (code bug): `get_all_processes` guards only the exit code and the
JSON decode with its `try/except`; the per-element parse runs in the
`else` clause, so a payload that parses but whose element lacks
`pm_uptime` raises `TypeError` (`None/1000` in `_calculate_uptime`) and
the exception propagates through resync and `list` to the caller instead
of being treated as an empty listing. -/
theorem get_all_processes_crash_on_missing_pm_uptime :
    get_all_processes envCrash = Except.error PyErr.typeError ∧
    recover_existent_processes envCrash gNS = Except.error PyErr.typeError ∧
    SupervisorGroup.list envCrash gNS = Except.error PyErr.typeError :=
  ⟨rfl, rfl, rfl⟩

end SupervisorGroup

namespace SupervisorGroup

theorem dgetD_dset_ne {α : Type} (d : List (String × α)) (k key : String)
    (v : α) (dflt : α) (h : key ≠ k) :
    dgetD (dset d k v) key dflt = dgetD d key dflt := by
  simp [dgetD, dlookup_dset_ne d k key v h]

theorem start_ok_status (env : Env) (g : SupervisorGroup) (c : String)
    (b : Bool) (g2 : SupervisorGroup) (tr : Trace)
    (hk : hasKey g.children (g.group_name ++ ":" ++ c) = true)
    (h : start env g c = Except.ok (b, g2, tr)) :
    status env g2 c false =
      Except.ok ([PyVal.str (if b then STATUS_RUNNING else STATUS_STARTING)],
        g2, emptyTrace) ∧
    ∃ instruction, tr.commands = [pySplit instruction] ∧
      (b = true ↔ (env.run (pySplit instruction)).code = 0) := by
  unfold start at h
  split at h
  · rename_i hnone
    rw [hasKey, hnone] at hk
    cases hk
  · rename_i data hdata
    split at h
    · rename_i instruction hinstr
      split at h
      · rename_i hcode
        cases h
        constructor
        · simp [status, withChildren, dlookup_dset_self, dgetD]
        · refine ⟨instruction, rfl, ?_⟩
          simp [hcode]
      · rename_i hcode
        cases h
        constructor
        · simp [status, withChildren, dlookup_dset_self, dgetD]
        · refine ⟨instruction, rfl, ?_⟩
          simp at hcode
          simp [hcode]
    · cases h

/-- C2: `start` on an unknown child fails with a log and no executor
call; on a known child it marks the record `STARTING`, runs the stored
instruction, leaves the status at `STARTING` on a non-zero exit
(returning false, no rollback), and promotes it to `RUNNING` on exit
zero (returning true); consequently after a successful `create` the
immediately following `status` reads `RUNNING` exactly when the start
command exited zero and `STARTING` otherwise. -/
theorem start_create_status_contract :
    (∀ env g c,
      dlookup g.children (g.group_name ++ ":" ++ c) = Option.none →
      start env g c = Except.ok (false, g,
        ⟨[], ["Process doesnt exist: " ++ (g.group_name ++ ":" ++ c)], []⟩)) ∧
    (∀ env g c data instruction,
      dlookup g.children (g.group_name ++ ":" ++ c) = some data →
      dgetD data "instruction" (PyVal.str "") = PyVal.str instruction →
      (((env.run (pySplit instruction)).code ≠ 0 →
        start env g c = Except.ok (false,
          withChildren g (dset g.children (g.group_name ++ ":" ++ c)
            (dset data "status" (PyVal.str STATUS_STARTING))),
          ⟨[pySplit instruction],
           [DEFAULT_ERROR_MESSAGE instruction
              (env.run (pySplit instruction)).code], []⟩)) ∧
       ((env.run (pySplit instruction)).code = 0 →
        start env g c = Except.ok (true,
          withChildren g (dset g.children (g.group_name ++ ":" ++ c)
            (dset data "status" (PyVal.str STATUS_RUNNING))),
          ⟨[pySplit instruction], [], []⟩)))) ∧
    (∀ env g c argv b g2 tr,
      create env g c argv = Except.ok (b, g2, tr) →
      status env g2 c false =
        Except.ok ([PyVal.str (if b then STATUS_RUNNING else STATUS_STARTING)],
          g2, emptyTrace) ∧
      ∃ instruction, tr.commands = [pySplit instruction] ∧
        (b = true ↔ (env.run (pySplit instruction)).code = 0)) := by
  have hinstr2 : ∀ (data : PyDict) (instruction : String),
      dgetD data "instruction" (PyVal.str "") = PyVal.str instruction →
      dgetD (dset data "status" (PyVal.str STATUS_STARTING)) "instruction"
        (PyVal.str "") = PyVal.str instruction := by
    intro data instruction hi
    rw [dgetD_dset_ne data "status" "instruction" _ _ (by decide)]
    exact hi
  refine ⟨?_, ?_, ?_⟩
  · intro env g c hnone
    unfold start
    simp only [hnone]
  · intro env g c data instruction hdata hinstr
    constructor
    · intro hcode
      unfold start
      simp only [hdata, hinstr2 data instruction hinstr, if_pos hcode]
    · intro hcode
      unfold start
      have hncode : ¬((env.run (pySplit instruction)).code ≠ 0) := by
        simp [hcode]
      simp only [hdata, hinstr2 data instruction hinstr, if_neg hncode]
      rw [dset_dset, dset_dset]
  · intro env g c argv b g2 tr h
    simp only [create] at h
    split at h
    · cases h
    · by_cases hk : hasKey g.children (g.group_name ++ ":" ++ c) = true
      · rw [if_pos hk] at h
        exact start_ok_status env g c b g2 tr hk h
      · rw [if_neg hk] at h
        refine start_ok_status env _ c b g2 tr ?_ h
        exact hasKey_dset_self _ _ _

/-- Fixture: an executor whose every command exits 0 (and whose stdout
never parses; no witness below reads it). -/
def envOk : Env := ⟨fun _ => ⟨Except.error (), 0⟩, 0⟩

/-- Fixture: a cached record for child `a` of group `g`, not running. -/
def recNotRun : PyDict :=
  [("name", PyVal.str "g:a"), ("instruction", PyVal.str "pm2 restart g:a"),
   ("status", PyVal.str "NOT RUNNING")]

/-- Fixture: a cached record for child `a` of group `g`, running. -/
def recRun : PyDict :=
  [("name", PyVal.str "g:a"), ("instruction", PyVal.str "pm2 restart g:a"),
   ("status", PyVal.str "RUNNING")]

/-- Fixture: group `g` with the stopped child `a`. -/
def gKnown : SupervisorGroup :=
  ⟨"g", [("g:a", recNotRun)], "py", "wd", Option.none⟩

/-- Fixture: group `g` with the running child `a`. -/
def gKnownRun : SupervisorGroup :=
  ⟨"g", [("g:a", recRun)], "py", "wd", Option.none⟩

/-- Witness for C2: starting an unknown child fails without commands;
starting the known stopped child against the all-zero executor yields
`RUNNING`; after `create` the immediate `status` reads `RUNNING`. -/
theorem start_create_status_contract_witness :
    start envOk gNS "a" = Except.ok (false, gNS,
      ⟨[], ["Process doesnt exist: g:a"], []⟩) ∧
    start envOk gKnown "a" = Except.ok (true, gKnownRun,
      ⟨[["pm2", "restart", "g:a"]], [], []⟩) ∧
    status envOk gKnownRun "a" false =
      Except.ok ([PyVal.str "RUNNING"], gKnownRun, emptyTrace) :=
  ⟨start_create_status_contract.1 envOk gNS "a" rfl,
   (start_create_status_contract.2.1 envOk gKnown "a" recNotRun
      "pm2 restart g:a" rfl rfl).2 (by decide),
   (start_create_status_contract.2.2 envOk gKnown "a" ["prog"] true gKnownRun
      ⟨[["pm2", "restart", "g:a"]], [], []⟩ rfl).1⟩

end SupervisorGroup

namespace SupervisorGroup

/-- C6: `stop` and `remove` on a name absent from the local cache raise
an alert — the group-prefixed message is logged first, and the optional
external callback receives it — and return false while executing no
command; an exception raised by the callback is caught and logged, never
propagated, so the returned result is the same `false`. -/
theorem unknown_child_alert (env : Env) (g : SupervisorGroup) (c : String)
    (h : hasKey g.children (g.group_name ++ ":" ++ c) = false) :
    stop env g c = (false, g,
      alert_mail g ("The process " ++ (g.group_name ++ ":" ++ c) ++
        " is not a child. It will not be stopped")) ∧
    remove env g c = (false, g,
      alert_mail g ("The process " ++ (g.group_name ++ ":" ++ c) ++
        " is not a child. It will not be removed")) ∧
    (∀ m, (alert_mail g m).commands = []) ∧
    (∀ m, (alert_mail g m).logs.head? =
      some ("[GROUP " ++ g.group_name ++ "] " ++ m)) ∧
    (∀ m cb, g.alert_method = some cb →
      (alert_mail g m).alerts = ["[GROUP " ++ g.group_name ++ "] " ++ m] ∧
      (cb ("[GROUP " ++ g.group_name ++ "] " ++ m) = Except.error () →
        (alert_mail g m).logs = ["[GROUP " ++ g.group_name ++ "] " ++ m,
          "Exception in external alert method."])) := by
  refine ⟨?_, ?_, ?_, ?_, ?_⟩
  · unfold stop
    rw [if_pos h]
  · unfold remove
    rw [if_pos h]
  · intro m
    unfold alert_mail
    split
    · rfl
    · split
      · rfl
      · rfl
  · intro m
    unfold alert_mail
    split
    · rfl
    · split
      · rfl
      · rfl
  · intro m cb hcb
    simp only [alert_mail, hcb]
    split
    · rename_i u hok
      refine ⟨rfl, ?_⟩
      intro herr
      rw [herr] at hok
      cases hok
    · exact ⟨rfl, fun _ => rfl⟩

/-- Fixture: an external alert callback that always raises. -/
def cbBoom : String → Except Unit Unit := fun _ => Except.error ()

/-- Fixture: a childless group configured with the raising callback. -/
def gBoom : SupervisorGroup := ⟨"g", [], "py", "wd", some cbBoom⟩

/-- Witness for C6 on a group whose alert callback raises: `stop` of an
unknown child still returns false with no commands executed, and the
callback failure is caught and logged. -/
theorem unknown_child_alert_witness :
    stop envOk gBoom "x" = (false, gBoom,
      alert_mail gBoom
        "The process g:x is not a child. It will not be stopped") ∧
    (alert_mail gBoom
      "The process g:x is not a child. It will not be stopped").commands =
        [] ∧
    (alert_mail gBoom
      "The process g:x is not a child. It will not be stopped").logs =
      ["[GROUP g] The process g:x is not a child. It will not be stopped",
       "Exception in external alert method."] :=
  ⟨(unknown_child_alert envOk gBoom "x" rfl).1,
   (unknown_child_alert envOk gBoom "x" rfl).2.2.1
     "The process g:x is not a child. It will not be stopped",
   ((unknown_child_alert envOk gBoom "x" rfl).2.2.2.2
     "The process g:x is not a child. It will not be stopped" cbBoom rfl).2
     rfl⟩

/-- C7: on a known child, `stop` sets the cached status to
`STATUS_STOPPED` and returns true exactly when the stop command exits
zero, and returns false leaving the state untouched otherwise; `remove`
deletes the cache entry and returns true exactly when the delete command
exits zero, and returns false leaving the entry intact otherwise. -/
theorem stop_remove_known_contract (env : Env) (g : SupervisorGroup)
    (c : String) (data : PyDict)
    (h : dlookup g.children (g.group_name ++ ":" ++ c) = some data) :
    (((env.run (pySplit (STOP_CMD (g.group_name ++ ":" ++ c)))).code = 0 →
      stop env g c = (true,
        withChildren g (dset g.children (g.group_name ++ ":" ++ c)
          (dset data "status" (PyVal.str STATUS_STOPPED))),
        ⟨[pySplit (STOP_CMD (g.group_name ++ ":" ++ c))], [], []⟩)) ∧
     ((env.run (pySplit (STOP_CMD (g.group_name ++ ":" ++ c)))).code ≠ 0 →
      stop env g c = (false, g,
        ⟨[pySplit (STOP_CMD (g.group_name ++ ":" ++ c))],
         [DEFAULT_ERROR_MESSAGE (STOP_CMD (g.group_name ++ ":" ++ c))
            (env.run (pySplit (STOP_CMD (g.group_name ++ ":" ++ c)))).code],
         []⟩))) ∧
    (((env.run (pySplit (REMOVE_CMD (g.group_name ++ ":" ++ c)))).code = 0 →
      remove env g c = (true,
        withChildren g (ddel g.children (g.group_name ++ ":" ++ c)),
        ⟨[pySplit (REMOVE_CMD (g.group_name ++ ":" ++ c))], [], []⟩)) ∧
     ((env.run (pySplit (REMOVE_CMD (g.group_name ++ ":" ++ c)))).code ≠ 0 →
      remove env g c = (false, g,
        ⟨[pySplit (REMOVE_CMD (g.group_name ++ ":" ++ c))],
         [DEFAULT_ERROR_MESSAGE (REMOVE_CMD (g.group_name ++ ":" ++ c))
            (env.run (pySplit (REMOVE_CMD (g.group_name ++ ":" ++ c)))).code],
         []⟩))) := by
  have hk : hasKey g.children (g.group_name ++ ":" ++ c) = true := by
    simp [hasKey, h]
  refine ⟨⟨?_, ?_⟩, ⟨?_, ?_⟩⟩
  · intro hcode
    simp [stop, stop_process, operation_over_process, hk, h, hcode,
      withChildren]
  · intro hcode
    simp [stop, stop_process, operation_over_process, hk, hcode]
  · intro hcode
    simp [remove, remove_process, operation_over_process, hk, hcode,
      withChildren]
  · intro hcode
    simp [remove, remove_process, operation_over_process, hk, hcode]

/-- Witness for C7 against the all-zero executor: stopping the running
child `a` turns its cached status into `NOT RUNNING`, and removing it
empties the cache, both returning true. -/
theorem stop_remove_known_contract_witness :
    stop envOk gKnownRun "a" =
      (true, gKnown, ⟨[["pm2", "stop", "g:a"]], [], []⟩) ∧
    remove envOk gKnownRun "a" =
      (true, gNS, ⟨[["pm2", "delete", "g:a"]], [], []⟩) :=
  ⟨(stop_remove_known_contract envOk gKnownRun "a" recRun rfl).1.1
     (by decide),
   (stop_remove_known_contract envOk gKnownRun "a" recRun rfl).2.1
     (by decide)⟩

/-- C9 (amended): a wrong-typed argument to `create_new_process` is
logged (`Wrong instance of SupervisorSubProcess`) and answered with the
plain boolean `false`, the group unchanged and no command executed — the
same boolean an ordinary failed operation returns, distinguishable only
by the log line, not by the returned value. -/
theorem create_new_process_wrong_type (env : Env) (g : SupervisorGroup) :
    create_new_process env g PyObject.other =
      Except.ok (false, g,
        ⟨[], ["Wrong instance of SupervisorSubProcess"], []⟩) :=
  rfl

/-- Counterexample to C9 as stated: at a concrete input the wrong-typed
call does not surface as a hard failure — it returns exactly the plain
`Except.ok` carrying `false`, the same boolean result shape that an
ordinary failed operation (here `start` on an unknown child) returns. -/
theorem create_new_process_wrong_type_not_distinguishable :
    create_new_process envOk gNS PyObject.other =
      Except.ok (false, gNS,
        ⟨[], ["Wrong instance of SupervisorSubProcess"], []⟩) ∧
    (¬ ∃ e, create_new_process envOk gNS PyObject.other = Except.error e) ∧
    SupervisorGroup.start envOk gNS "ghost" =
      Except.ok (false, gNS, ⟨[], ["Process doesnt exist: g:ghost"], []⟩) := by
  refine ⟨rfl, ?_, rfl⟩
  rintro ⟨e, he⟩
  simp [create_new_process] at he

end SupervisorGroup
